import Mathlib

set_option maxRecDepth 8192

/-!
Verification development for the concurrent HTTP runner (two variants:
a requests-based runner and a stdlib-based runner).  The Python sources
are shallowly embedded: Python strings become Lean strings (processed as
character lists), Python dicts become insertion-ordered association
lists with last-write-wins update, raised exceptions become the error
side of an Except, and external effects (the HTTP transport, the file
system, sleeping, JSON encode/decode from the standard library) become
explicit oracle parameters and event traces.
-/

namespace Py

/-- Model of Python str.strip(): drop whitespace from both ends. -/
def strip (l : List Char) : List Char :=
  ((l.dropWhile Char.isWhitespace).reverse.dropWhile Char.isWhitespace).reverse

/-- Model of s.split(sep, 1) guarded by the membership test (sep in s):
returns none when the separator does not occur, otherwise the parts
before and after the first occurrence. -/
def splitOnce (sep : Char) : List Char → Option (List Char × List Char)
  | [] => none
  | c :: rest =>
      if c = sep then some ([], rest)
      else (splitOnce sep rest).map (fun p => (c :: p.1, p.2))

/-- Model of a Python dict as an insertion-ordered association list.
Assigning to an existing key updates the value in place; a new key is
appended at the end. -/
def dictInsert (k : String) (v : String) : List (String × String) → List (String × String)
  | [] => [(k, v)]
  | (k0, v0) :: rest =>
      if k0 = k then (k, v) :: rest else (k0, v0) :: dictInsert k v rest

/-- Helper for an ASCII apostrophe, used to reproduce the quoting in the
Python error messages. -/
def sq : String := String.singleton (Char.ofNat 39)

/-- Reproduces the f-string quoting of a value in the error messages. -/
def quoted (s : String) : String := sq ++ s ++ sq

/-- Model of Python str.strip(chars): drop any character of the given
set from both ends. -/
def stripChars (cs : List Char) (l : List Char) : List Char :=
  ((l.dropWhile (fun c => c ∈ cs)).reverse.dropWhile (fun c => c ∈ cs)).reverse

end Py

/-- Dictionary type used throughout: an insertion-ordered association
list with string keys and values. -/
abbrev Dict := List (String × String)

/-- Minimal JSON value model for the bodies handled by json.loads and
json.dumps. -/
inductive Json where
  | null
  | bool (b : Bool)
  | num (n : Int)
  | str (s : String)
  | arr (elems : List Json)
  | obj (fields : List (String × Json))

/-- Terminal record produced for one target, mirroring the two dict
shapes built by perform_request_with_retries. -/
inductive Outcome where
  | success (name : String) (status : Nat) (elapsed_ms : Nat)
      (response_headers : Dict)
  | failure (name : String) (error : String)

/-- Observable events of a run: sleeps, transport calls (with the body
handed to the transport), persistence attempts, and JSON
serializations. -/
inductive Ev where
  | sleepBackoff (ms : Nat)
  | sleepPacing (ms : Nat)
  | callRq (jsonBody : Option Json) (data : Option String)
  | callStd (body : Option (List Nat))
  | save
  | serialize

/-- True exactly when the event is a transport call of either
variant. -/
def Ev.isCall : Ev → Bool
  | .callRq _ _ => true
  | .callStd _ => true
  | _ => false

/-- True exactly when the event is a JSON serialization (a json.dumps
call). -/
def Ev.isSerialize : Ev → Bool
  | .serialize => true
  | _ => false

/-- Model of a Python truthiness test on an optional string: None and
the empty string are falsy. -/
def truthyStr : Option String → Bool
  | none => false
  | some s => !(s == "")

/-- External file system oracle used by parse_body and the session-file
fan-out. -/
structure FS where
  isfile : String → Bool
  readText : String → String
  readBytes : String → List Nat
  readLines : String → List String

/-- CLI body arguments relevant to parse_body. -/
structure BodyArgs where
  json : Option String
  data : Option String

/-- Response data as seen by the retry loop: status code, headers,
content bytes and measured elapsed milliseconds. -/
structure Response where
  status : Nat
  headers : Dict
  content : List Nat
  elapsed_ms : Nat

/-- Embedding of the while-loop shared verbatim by the two variants of
perform_request_with_retries.  The loop is indexed by the remaining
number of permitted attempts (retries + 1 - attempt); one iteration
sleeps backoff before every retry, sleeps pacing before every attempt,
runs the attempt body (transport call plus, when saving is enabled,
result persistence — all inside the try block), and on any exception
records it as last_exc and retries. -/
def retryLoop (name : String) (build : Nat → Except String Response × List Ev)
    (save : Nat → Except String Unit) (saveEnabled : Bool)
    (backoff_base_ms delay_between_ms : Nat) :
    Nat → Nat → Option String → Outcome × List Ev
  | 0, _, last_exc =>
      (.failure name (match last_exc with | some m => m | none => "Unknown error"), [])
  | fuel + 1, attempt, last_exc =>
      let evs1 := if 0 < attempt ∧ 0 < backoff_base_ms then
          [Ev.sleepBackoff (backoff_base_ms * 2 ^ (attempt - 1))] else []
      let evs2 := if 0 < delay_between_ms then [Ev.sleepPacing delay_between_ms] else []
      match build attempt with
      | (.error e, evs3) =>
          let next := retryLoop name build save saveEnabled backoff_base_ms
            delay_between_ms fuel (attempt + 1) (some e)
          (next.1, evs1 ++ evs2 ++ evs3 ++ next.2)
      | (.ok resp, evs3) =>
          let record := Outcome.success name resp.status resp.elapsed_ms resp.headers
          if saveEnabled then
            match save attempt with
            | .ok _ => (record, evs1 ++ evs2 ++ evs3 ++ [Ev.save])
            | .error e =>
                let next := retryLoop name build save saveEnabled backoff_base_ms
                  delay_between_ms fuel (attempt + 1) (some e)
                (next.1, evs1 ++ evs2 ++ evs3 ++ [Ev.save] ++ next.2)
          else (record, evs1 ++ evs2 ++ evs3)

/-- Headers and cookies after the per-target session injection shared by
both variants: when the session value is truthy, a configured header
name and a configured cookie name each receive the token. -/
def applySession (base_headers base_cookies : Dict)
    (session_value session_header_name session_cookie_name : Option String) :
    Dict × Dict :=
  if truthyStr session_value then
    let sv := match session_value with | some s => s | none => ""
    let headers := match session_header_name with
      | some hn => if truthyStr (some hn) then Py.dictInsert hn sv base_headers
          else base_headers
      | none => base_headers
    let cookies := match session_cookie_name with
      | some cn => if truthyStr (some cn) then Py.dictInsert cn sv base_cookies
          else base_cookies
      | none => base_cookies
    (headers, cookies)
  else (base_headers, base_cookies)

namespace HttpRunner

/-- Embedding of parse_key_value_pairs from http_runner.py: split each
entry on the first occurrence of the separator, strip whitespace around
key and value, raise on a missing separator or an empty key, skip None
entries, build the result dict in order. -/
def parse_key_value_pairs (pairs : Option (List (Option String))) (sep : Char) :
    Except String (List (String × String)) :=
  let loop : List (Option String) → List (String × String) →
      Except String (List (String × String)) :=
    fun items acc =>
      items.foldl (fun acc item =>
        match acc with
        | .error e => .error e
        | .ok acc =>
          match item with
          | none => .ok acc
          | some item =>
            match Py.splitOnce sep item.toList with
            | none => .error ("Invalid pair " ++ Py.quoted item ++
                ". Expected format key" ++ String.singleton sep ++ "value")
            | some (k, v) =>
              let key := Py.strip k
              let value := Py.strip v
              if key = [] then
                .error ("Invalid pair " ++ Py.quoted item ++ ". Key is empty")
              else .ok (Py.dictInsert key.asString value.asString acc)) (.ok acc)
  match pairs with
  | none => .ok []
  | some items => if items = [] then .ok [] else loop items []

/-- Embedding of parse_header_pairs from http_runner.py: like the pair
parser with a colon separator, but without the None-entry guard. -/
def parse_header_pairs (pairs : Option (List String)) :
    Except String (List (String × String)) :=
  let loop : List String → List (String × String) →
      Except String (List (String × String)) :=
    fun items acc =>
      items.foldl (fun acc item =>
        match acc with
        | .error e => .error e
        | .ok acc =>
          match Py.splitOnce ':' item.toList with
          | none => .error ("Invalid header " ++ Py.quoted item ++
              ". Expected format " ++ Py.sq ++ "Name: Value" ++ Py.sq)
          | some (n, v) =>
            let name := Py.strip n
            let value := Py.strip v
            if name = [] then
              .error ("Invalid header " ++ Py.quoted item ++ ". Name is empty")
            else .ok (Py.dictInsert name.asString value.asString acc)) (.ok acc)
  match pairs with
  | none => .ok []
  | some items => if items = [] then .ok [] else loop items []

/-- Embedding of safe_filename from http_runner.py: keep alphanumerics
and the three allowed punctuation characters, replace everything else
with an underscore, truncate to 128 characters. -/
def safe_filename (value : String) : String :=
  ((value.toList.map (fun ch =>
      if ch.isAlphanum || ch == '-' || ch == '_' || ch == '.' then ch else '_')).take
    128).asString

/-- Embedding of parse_body from http_runner.py.  The file system and
json.loads are oracle parameters; json.loads returns the parsed value or
the decoder exception message.  The returned pair is (data, json_body):
the raw body stays a string and the JSON body stays the parsed value —
this variant performs no serialization, so its event trace is empty. -/
def parse_body (fs : FS) (jsonLoads : String → Except String Json)
    (args : BodyArgs) : Except String (Option String × Option Json) × List Ev :=
  if args.json.isSome && args.data.isSome then
    (.error "Provide either --json or --data, not both", [])
  else
    let jsonRes : Except String (Option Json) :=
      match args.json with
      | none => .ok none
      | some js =>
          if fs.isfile js then
            match jsonLoads (fs.readText js) with
            | .ok obj => .ok (some obj)
            | .error e => .error e
          else
            match jsonLoads js with
            | .ok obj => .ok (some obj)
            | .error e => .error ("--json is not valid JSON: " ++ e)
    match jsonRes with
    | .error e => (.error e, [])
    | .ok json_body =>
        let data : Option String :=
          match args.data with
          | none => none
          | some d => if fs.isfile d then some (fs.readText d) else some d
        (.ok (data, json_body), [])

/-- Request descriptor handed to the requests.request transport: all
keyword arguments of the call in build_request, with the JSON body still
an unserialized value. -/
structure RqRequest where
  url : String
  method : String
  params : Dict
  headers : Dict
  cookies : Dict
  timeout : Nat
  allow_redirects : Bool
  verify : Bool
  proxies : Option Dict
  data : Option String
  json : Option Json

/-- Embedding of build_request from http_runner.py: assemble the keyword
arguments and invoke the requests.request transport once; the transport
oracle either returns a response (any status code) or fails with a
transport exception message.  The call event records the JSON value and
raw data handed over. -/
def build_request (transport : RqRequest → Nat → Except String Response)
    (attempt : Nat) (url method : String) (params headers cookies : Dict)
    (timeout : Nat) (allow_redirects verify_tls : Bool) (proxies : Option Dict)
    (data : Option String) (json_body : Option Json) :
    Except String Response × List Ev :=
  let req : RqRequest :=
    { url := url, method := method, params := params, headers := headers,
      cookies := cookies, timeout := timeout, allow_redirects := allow_redirects,
      verify := verify_tls, proxies := proxies, data := data, json := json_body }
  (transport req attempt, [Ev.callRq json_body data])

/-- Embedding of perform_request_with_retries from http_runner.py:
session injection into headers/cookies, then the retry while-loop
(retryLoop) whose attempt body is build_request followed, when a save
directory is configured (truthy), by result persistence via the save
oracle. -/
def perform_request_with_retries (transport : RqRequest → Nat → Except String Response)
    (save : Nat → Except String Unit) (name url method : String)
    (params base_headers base_cookies : Dict)
    (session_value session_header_name session_cookie_name : Option String)
    (timeout : Nat) (allow_redirects verify_tls : Bool) (proxies : Option Dict)
    (data : Option String) (json_body : Option Json)
    (retries backoff_base_ms delay_between_ms : Nat)
    (save_dir : Option String) (save_body : Bool) : Outcome × List Ev :=
  let hc := applySession base_headers base_cookies session_value
    session_header_name session_cookie_name
  retryLoop name
    (fun attempt => build_request transport attempt url method params hc.1 hc.2
      timeout allow_redirects verify_tls proxies data json_body)
    save (truthyStr save_dir) backoff_base_ms delay_between_ms
    (retries + 1) 0 none

end HttpRunner

namespace HttpRunnerStdlib

/-- Embedding of parse_key_value_pairs from http_runner_stdlib.py; the
body is identical to the requests-variant function. -/
def parse_key_value_pairs (pairs : Option (List (Option String))) (sep : Char) :
    Except String (List (String × String)) :=
  let loop : List (Option String) → List (String × String) →
      Except String (List (String × String)) :=
    fun items acc =>
      items.foldl (fun acc item =>
        match acc with
        | .error e => .error e
        | .ok acc =>
          match item with
          | none => .ok acc
          | some item =>
            match Py.splitOnce sep item.toList with
            | none => .error ("Invalid pair " ++ Py.quoted item ++
                ". Expected format key" ++ String.singleton sep ++ "value")
            | some (k, v) =>
              let key := Py.strip k
              let value := Py.strip v
              if key = [] then
                .error ("Invalid pair " ++ Py.quoted item ++ ". Key is empty")
              else .ok (Py.dictInsert key.asString value.asString acc)) (.ok acc)
  match pairs with
  | none => .ok []
  | some items => if items = [] then .ok [] else loop items []

/-- Embedding of parse_header_pairs from http_runner_stdlib.py; the body
is identical to the requests-variant function. -/
def parse_header_pairs (pairs : Option (List String)) :
    Except String (List (String × String)) :=
  let loop : List String → List (String × String) →
      Except String (List (String × String)) :=
    fun items acc =>
      items.foldl (fun acc item =>
        match acc with
        | .error e => .error e
        | .ok acc =>
          match Py.splitOnce ':' item.toList with
          | none => .error ("Invalid header " ++ Py.quoted item ++
              ". Expected format " ++ Py.sq ++ "Name: Value" ++ Py.sq)
          | some (n, v) =>
            let name := Py.strip n
            let value := Py.strip v
            if name = [] then
              .error ("Invalid header " ++ Py.quoted item ++ ". Name is empty")
            else .ok (Py.dictInsert name.asString value.asString acc)) (.ok acc)
  match pairs with
  | none => .ok []
  | some items => if items = [] then .ok [] else loop items []

/-- Embedding of safe_filename from http_runner_stdlib.py; the body is
identical to the requests-variant function. -/
def safe_filename (value : String) : String :=
  ((value.toList.map (fun ch =>
      if ch.isAlphanum || ch == '-' || ch == '_' || ch == '.' then ch else '_')).take
    128).asString

/-- Model of Python dict.get(key, default) on the association-list
dict. -/
def dictGet (d : Dict) (k : String) (defaultV : String) : String :=
  match d.lookup k with
  | some v => v
  | none => defaultV

/-- Model of Python str.title(): the first letter of each alphabetic run
is uppercased, the rest lowercased. -/
def pyTitle (l : List Char) : List Char :=
  (l.foldl (fun st c =>
      if c.isAlpha then
        (st.1 ++ [if st.2 then c.toLower else c.toUpper], true)
      else (st.1 ++ [c], false)) (([] : List Char), false)).1

/-- Embedding of parse_body from http_runner_stdlib.py: same validation
and sourcing as the requests variant, but the JSON body is serialized to
bytes by json.dumps at this point (recorded as a serialize event) and
the raw body is read or encoded as bytes.  The returned pair is
(data_bytes, json_bytes). -/
def parse_body (fs : FS) (jsonLoads : String → Except String Json)
    (jsonDumps : Json → List Nat) (args : BodyArgs) :
    Except String (Option (List Nat) × Option (List Nat)) × List Ev :=
  if args.json.isSome && args.data.isSome then
    (.error "Provide either --json or --data, not both", [])
  else
    let objRes : Except String (Option Json) :=
      match args.json with
      | none => .ok none
      | some js =>
          if fs.isfile js then
            match jsonLoads (fs.readText js) with
            | .ok obj => .ok (some obj)
            | .error e => .error e
          else
            match jsonLoads js with
            | .ok obj => .ok (some obj)
            | .error e => .error ("--json is not valid JSON: " ++ e)
    match objRes with
    | .error e => (.error e, [])
    | .ok obj =>
        let (json_bytes, evs) : Option (List Nat) × List Ev :=
          match obj with
          | some o => (some (jsonDumps o), [Ev.serialize])
          | none => (none, [])
        let data_bytes : Option (List Nat) :=
          match args.data with
          | none => none
          | some d =>
              if fs.isfile d then some (fs.readBytes d)
              else some ((String.toUTF8 d).toList.map UInt8.toNat)
        (.ok (data_bytes, json_bytes), evs)

/-- Embedding of merge_cookies_into_header from http_runner_stdlib.py:
join the cookie jar with semicolons and merge it into any existing
Cookie header, trimming separators. -/
def merge_cookies_into_header (headers cookies : Dict) : Dict :=
  if cookies = [] then headers
  else
    let existing := (Py.strip (dictGet headers "Cookie" "").toList).asString
    let jar := String.intercalate "; "
      (cookies.map (fun kv => kv.1 ++ "=" ++ kv.2))
    let merged :=
      (Py.strip (Py.stripChars [';', ' '] (existing ++ "; " ++ jar).toList)).asString
    Py.dictInsert "Cookie" merged headers

/-- Request descriptor handed to the urllib opener: final URL, method,
final headers, and the selected body bytes. -/
structure StdRequest where
  url : String
  method : String
  headers : Dict
  body : Option (List Nat)

/-- Result of one opener.open call as classified by the source: a
regular response, an HTTPError (carried status line, possibly absent
headers or unreadable content), or a URLError (a transport failure). -/
inductive RawResult where
  | resp (status : Nat) (headers : Dict) (content : List Nat) (elapsed_ms : Nat)
  | httpError (code : Nat) (headers : Option Dict) (content : Option (List Nat))
      (elapsed_ms : Nat)
  | urlError (msg : String)

/-- Embedding of build_and_send_request from http_runner_stdlib.py:
attach params to the URL (urllib encoding abstracted as an oracle),
merge cookies into the headers, select the body (JSON bytes win; a
Content-Type header is added only when no title-cased key equals
Content-Type), then send once.  An HTTPError is treated as a response
(missing headers become empty, unreadable content becomes empty bytes);
a URLError is re-raised as a RuntimeError carrying its message. -/
def build_and_send_request (attachParams : String → Dict → String)
    (transport : StdRequest → Nat → RawResult) (attempt : Nat)
    (url method : String) (params headers cookies : Dict)
    (timeout : Nat) (allow_redirects verify_tls : Bool) (proxies : Option Dict)
    (data_bytes json_bytes : Option (List Nat)) :
    Except String Response × List Ev :=
  let final_url := attachParams url params
  let merged := merge_cookies_into_header headers cookies
  let body : Option (List Nat) :=
    match json_bytes with
    | some jb => some jb
    | none => data_bytes
  let final_headers : Dict :=
    match json_bytes with
    | some _ =>
        let titled := merged.map (fun kv => ((pyTitle kv.1.toList).asString, kv.2))
        if (titled.lookup "Content-Type").isSome then merged
        else Py.dictInsert "Content-Type" "application/json; charset=utf-8" merged
    | none => merged
  let req : StdRequest :=
    { url := final_url, method := method, headers := final_headers, body := body }
  match transport req attempt with
  | .resp s h c e => (.ok ⟨s, h, c, e⟩, [Ev.callStd body])
  | .httpError code hs cont e =>
      (.ok ⟨code, (match hs with | some h => h | none => []),
        (match cont with | some c => c | none => []), e⟩, [Ev.callStd body])
  | .urlError m => (.error m, [Ev.callStd body])

/-- Embedding of perform_request_with_retries from
http_runner_stdlib.py: identical retry while-loop to the requests
variant, with build_and_send_request as the attempt body. -/
def perform_request_with_retries (attachParams : String → Dict → String)
    (transport : StdRequest → Nat → RawResult)
    (save : Nat → Except String Unit) (name url method : String)
    (params base_headers base_cookies : Dict)
    (session_value session_header_name session_cookie_name : Option String)
    (timeout : Nat) (allow_redirects verify_tls : Bool) (proxies : Option Dict)
    (data_bytes json_bytes : Option (List Nat))
    (retries backoff_base_ms delay_between_ms : Nat)
    (save_dir : Option String) (save_body : Bool) : Outcome × List Ev :=
  let hc := applySession base_headers base_cookies session_value
    session_header_name session_cookie_name
  retryLoop name
    (fun attempt => build_and_send_request attachParams transport attempt url method
      params hc.1 hc.2 timeout allow_redirects verify_tls proxies data_bytes json_bytes)
    save (truthyStr save_dir) backoff_base_ms delay_between_ms
    (retries + 1) 0 none

end HttpRunnerStdlib

/-- JSON object written for one Outcome, mirroring the record dicts
built in perform_request_with_retries and serialized by json.dumps in
run_concurrent_requests. -/
def outcomeToJson : Outcome → Json
  | .success n s e h =>
      .obj [("name", .str n), ("status", .num (Int.ofNat s)),
        ("elapsed_ms", .num (Int.ofNat e)),
        ("response_headers", .obj (h.map (fun kv => (kv.1, .str kv.2))))]
  | .failure n e => .obj [("name", .str n), ("error", .str e)]

/-- Keys of a JSON object, in order. -/
def jsonKeys : Json → List String
  | .obj fields => fields.map Prod.fst
  | _ => []

/-- JSON Lines content written to the aggregate output path: one JSON
object per Outcome, in the order the Outcomes were received. -/
def writeJsonl (results : List Outcome) : List Json :=
  results.map outcomeToJson

namespace HttpRunner

/-- CLI arguments of the requests-based runner, as provided by the
excluded argparse layer. -/
structure RunArgs where
  url : String
  method : String
  param : Option (List (Option String))
  cookie : Option (List (Option String))
  header : Option (List String)
  session_file : Option String
  session_header_name : Option String
  session_cookie_name : Option String
  name : Option String
  json : Option String
  data : Option String
  timeout : Nat
  proxy : Option String
  no_verify : Bool
  follow_redirects : Bool
  concurrency : Nat
  retries : Nat
  backoff_ms : Nat
  delay_ms : Nat
  output : Option String
  save_dir : Option String
  save_body : Bool

/-- Embedding of build_proxies from http_runner.py: a truthy proxy URL
applies to both schemes. -/
def build_proxies (proxy : Option String) : Option Dict :=
  match proxy with
  | some p => if p = "" then none else some [("http", p), ("https", p)]
  | none => none

/-- Fan-out of targets from http_runner.py run_concurrent_requests: one
(token, token) target per non-blank stripped line of a truthy session
file, else a single synthetic target named by --name (default
"request") with no token. -/
def fanOutTargets (fs : FS) (args : RunArgs) :
    Except String (List (String × Option String)) :=
  if truthyStr args.session_file then
    let p := match args.session_file with | some s => s | none => ""
    if !(fs.isfile p) then .error ("Session file not found: " ++ p)
    else
      .ok (((fs.readLines p).map (fun line => (Py.strip line.toList).asString)).filterMap
        (fun token => if token = "" then none else some (token, some token)))
  else
    .ok [((match args.name with
      | some n => if n = "" then "request" else n
      | none => "request"), none)]

/-- Embedding of run_concurrent_requests from http_runner.py: parse
params, cookies, headers and body (any failure aborts before any
attempt), build proxies, fan out targets, run
perform_request_with_retries for every target, and, when an output path
is configured, produce the JSON Lines content in completion order.
Completion order is modelled as target order; the event trace
concatenates the per-target traces. -/
def run_concurrent_requests (fs : FS) (jsonLoads : String → Except String Json)
    (transport : String → RqRequest → Nat → Except String Response)
    (save : String → Nat → Except String Unit) (args : RunArgs) :
    Except String (List Outcome × Option (List Json)) × List Ev :=
  match parse_key_value_pairs (some (args.param.getD [])) '=' with
  | .error e => (.error e, [])
  | .ok base_params =>
  match parse_key_value_pairs (some (args.cookie.getD [])) '=' with
  | .error e => (.error e, [])
  | .ok base_cookies =>
  match parse_header_pairs (some (args.header.getD [])) with
  | .error e => (.error e, [])
  | .ok base_headers =>
  match parse_body fs jsonLoads ⟨args.json, args.data⟩ with
  | (.error e, evs) => (.error e, evs)
  | (.ok body, evs) =>
  let proxies := build_proxies args.proxy
  match fanOutTargets fs args with
  | .error e => (.error e, evs)
  | .ok targets =>
    let runs := targets.map (fun t =>
      perform_request_with_retries (transport t.1) (save t.1) t.1 args.url
        args.method base_params base_headers base_cookies t.2
        args.session_header_name args.session_cookie_name args.timeout
        args.follow_redirects (!args.no_verify) proxies body.1 body.2
        args.retries args.backoff_ms args.delay_ms args.save_dir args.save_body)
    let results := runs.map Prod.fst
    let outLines := if truthyStr args.output then some (writeJsonl results) else none
    (.ok (results, outLines), evs ++ runs.flatMap Prod.snd)

/-- Embedding of main from http_runner.py: run to completion gives exit
code 0 whatever the individual Outcomes are; a raised validation (or
other) exception gives 1; a KeyboardInterrupt (modelled as an external
flag) gives 130. -/
def main (fs : FS) (jsonLoads : String → Except String Json)
    (transport : String → RqRequest → Nat → Except String Response)
    (save : String → Nat → Except String Unit) (args : RunArgs)
    (interrupted : Bool) : Nat :=
  if interrupted then 130
  else
    match (run_concurrent_requests fs jsonLoads transport save args).1 with
    | .ok _ => 0
    | .error _ => 1

end HttpRunner

/-- Chunked trace of consecutive loop iterations: one chunk per
iteration, starting at the given attempt index. -/
def RunnerLemmas.recTrace (g : Nat → List Ev) : Nat → Nat → List Ev
  | 0, _ => []
  | fuel + 1, attempt => g attempt ++ RunnerLemmas.recTrace g fuel (attempt + 1)

/-- Body bytes selected by build_and_send_request: the JSON bytes win
over the raw data bytes. -/
def bodySelect (data_bytes json_bytes : Option (List Nat)) : Option (List Nat) :=
  match json_bytes with
  | some jb => some jb
  | none => data_bytes

/-- Response extracted from an opener result by build_and_send_request:
an HTTPError is converted to a response (absent headers become the empty
dict, unreadable content becomes empty bytes); a URLError yields no
response. -/
def HttpRunnerStdlib.RawResult.toResponse : HttpRunnerStdlib.RawResult → Option Response
  | .resp s h c e => some ⟨s, h, c, e⟩
  | .httpError code hs cont e =>
      some ⟨code, (match hs with | some h => h | none => []),
        (match cont with | some c => c | none => []), e⟩
  | .urlError _ => none

/-- Concrete file-system oracle with no files, used by the concrete
instantiations. -/
def emptyFS : FS := ⟨fun _ => false, fun _ => "", fun _ => [], fun _ => []⟩

/-- Concrete single-target CLI configuration used by the concrete
instantiations: default options, no body, no session file, no output
path. -/
def baseArgs : HttpRunner.RunArgs :=
  { url := "http://x", method := "GET", param := none, cookie := none,
    header := none, session_file := none, session_header_name := none,
    session_cookie_name := none, name := some "t", json := none, data := none,
    timeout := 30, proxy := none, no_verify := false, follow_redirects := false,
    concurrency := 10, retries := 0, backoff_ms := 0, delay_ms := 0,
    output := none, save_dir := none, save_body := false }

namespace RunnerLemmas

/-- Counting over a flatMap is the sum of the per-chunk counts. -/
theorem countP_flatMap (p : Ev → Bool) (f : Nat → List Ev) :
    ∀ l : List Nat, ((l.flatMap f).countP p) = (l.map (fun a => (f a).countP p)).sum := by
  intro l
  induction l with
  | nil => simp
  | cons a t ih => simp [List.flatMap_cons, List.countP_append, ih]

/-- Peeling the first chunk off a flatMap over an initial segment. -/
theorem flatMap_range_succ (f : Nat → List Ev) (n : Nat) :
    (List.range (n + 1)).flatMap f = f 0 ++ (List.range n).flatMap (fun k => f (k + 1)) := by
  induction n with
  | zero => simp [List.range_succ]
  | succ m ih =>
      rw [List.range_succ, List.flatMap_append, ih, List.range_succ (n := m),
        List.flatMap_append]
      simp [List.append_assoc]

/-- Closed form of recTrace as a flatMap over iteration offsets. -/
theorem recTrace_eq_flatMap (g : Nat → List Ev) :
    ∀ fuel attempt, recTrace g fuel attempt =
      (List.range fuel).flatMap (fun k => g (attempt + k)) := by
  intro fuel
  induction fuel with
  | zero => intro attempt; simp [recTrace]
  | succ m ih =>
      intro attempt
      rw [flatMap_range_succ (f := fun k => g (attempt + k))]
      simp only [Nat.add_zero, recTrace, ih (attempt + 1)]
      refine congrArg (g attempt ++ ·) (congrArg _ ?_)
      funext k
      exact congrArg g (by omega)

/-- Behaviour of the shared retry loop when every attempt body raises:
the loop runs through all remaining attempts, keeps only the last
message, and produces the per-iteration sleep/attempt trace. -/
theorem retryLoop_allFail (name : String) (build : Nat → Except String Response × List Ev)
    (save : Nat → Except String Unit) (se : Bool) (b d : Nat)
    (msg : Nat → String) (bevs : Nat → List Ev)
    (hb : ∀ i, build i = (.error (msg i), bevs i)) :
    ∀ (fuel attempt : Nat) (last : Option String),
      retryLoop name build save se b d (fuel + 1) attempt last =
        (.failure name (msg (attempt + fuel)),
         recTrace (fun i =>
           (if 0 < i ∧ 0 < b then [Ev.sleepBackoff (b * 2 ^ (i - 1))] else []) ++
           (if 0 < d then [Ev.sleepPacing d] else []) ++ bevs i) (fuel + 1) attempt) := by
  intro fuel
  induction fuel with
  | zero =>
      intro attempt last
      simp [retryLoop, recTrace, hb attempt]
  | succ m ih =>
      intro attempt last
      rw [show (m + 1 + 1) = (m + 1) + 1 from rfl]
      conv_lhs => rw [retryLoop]
      simp only [hb attempt]
      rw [ih (attempt + 1) (some (msg attempt))]
      have h2 : attempt + (m + 1) = attempt + 1 + m := by omega
      simp [h2, recTrace, List.append_assoc]

/-- List membership in a conditional singleton forces equality. -/
theorem eq_of_mem_ite_singleton {e x : Ev} {c : Prop} [Decidable c]
    (h : e ∈ (if c then [x] else [])) : e = x := by
  split at h
  · simpa using h
  · simp at h

/-- Counting a predicate over recTrace when every chunk counts one. -/
theorem countP_recTrace_one (p : Ev → Bool) (g : Nat → List Ev)
    (hg : ∀ i, (g i).countP p = 1) :
    ∀ fuel attempt, (recTrace g fuel attempt).countP p = fuel := by
  intro fuel
  induction fuel with
  | zero => intro attempt; simp [recTrace]
  | succ m ih => intro attempt; simp [recTrace, List.countP_append, hg, ih]; omega

/-- Behaviour of the shared retry loop when the transport always yields
a response but persistence always raises: the save failure consumes the
retry budget exactly like a transport failure, the whole attempt is
re-run, and the final Outcome carries the last save error. -/
theorem retryLoop_saveFail (name : String) (build : Nat → Except String Response × List Ev)
    (save : Nat → Except String Unit) (b d : Nat)
    (resp : Nat → Response) (bevs : Nat → List Ev) (emsg : Nat → String)
    (hb : ∀ i, build i = (.ok (resp i), bevs i))
    (hs : ∀ i, save i = .error (emsg i)) :
    ∀ (fuel attempt : Nat) (last : Option String),
      retryLoop name build save true b d (fuel + 1) attempt last =
        (.failure name (emsg (attempt + fuel)),
         recTrace (fun i =>
           (if 0 < i ∧ 0 < b then [Ev.sleepBackoff (b * 2 ^ (i - 1))] else []) ++
           (if 0 < d then [Ev.sleepPacing d] else []) ++ bevs i ++ [Ev.save])
           (fuel + 1) attempt) := by
  intro fuel
  induction fuel with
  | zero =>
      intro attempt last
      simp [retryLoop, recTrace, hb attempt, hs attempt]
  | succ m ih =>
      intro attempt last
      rw [show (m + 1 + 1) = (m + 1) + 1 from rfl]
      conv_lhs => rw [retryLoop]
      simp only [hb attempt, hs attempt]
      rw [ih (attempt + 1) (some (emsg attempt))]
      have h2 : attempt + (m + 1) = attempt + 1 + m := by omega
      simp [h2, recTrace, List.append_assoc]

/-- Behaviour of the shared retry loop when the first attempt obtains a
response and saving is disabled: a single attempt, an immediate success
record, no backoff sleep. -/
theorem retryLoop_firstOk (name : String) (build : Nat → Except String Response × List Ev)
    (save : Nat → Except String Unit) (b d : Nat) (r : Response) (bevs0 : List Ev)
    (hb : build 0 = (.ok r, bevs0)) (fuel : Nat) (last : Option String) :
    retryLoop name build save false b d (fuel + 1) 0 last =
      (.success name r.status r.elapsed_ms r.headers,
       (if 0 < d then [Ev.sleepPacing d] else []) ++ bevs0) := by
  conv_lhs => rw [retryLoop]
  simp [hb]

/-- Every call event in a retry-loop trace is the call emitted by the
attempt body, whatever the transport and save oracles do: the request
handed to the transport is rebuilt identically on every attempt. -/
theorem retryLoop_call_events (name : String) (build : Nat → Except String Response × List Ev)
    (save : Nat → Except String Unit) (se : Bool) (b d : Nat) (ev0 : Ev)
    (hb : ∀ i, (build i).2 = [ev0]) :
    ∀ (fuel attempt : Nat) (last : Option String) (e : Ev),
      e ∈ (retryLoop name build save se b d fuel attempt last).2 →
      e.isCall = true → e = ev0 := by
  intro fuel
  induction fuel with
  | zero =>
      intro attempt last e he _
      simp [retryLoop] at he
  | succ m ih =>
      intro attempt last e he hc
      rw [retryLoop] at he
      have hba := hb attempt
      cases hbuild : build attempt with
      | mk r evs =>
        rw [hbuild] at hba
        simp only at hba
        subst hba
        rw [hbuild] at he
        cases r with
        | error msg2 =>
            simp only [List.mem_append, List.mem_singleton] at he
            rcases he with (((h1 | h2) | h3) | h4)
            · rw [eq_of_mem_ite_singleton h1] at hc; simp [Ev.isCall] at hc
            · rw [eq_of_mem_ite_singleton h2] at hc; simp [Ev.isCall] at hc
            · exact h3
            · exact ih (attempt + 1) (some msg2) e h4 hc
        | ok resp =>
            cases se with
            | false =>
                simp only [Bool.false_eq_true, if_false,
                  List.mem_append, List.mem_singleton] at he
                rcases he with ((h1 | h2) | h3)
                · rw [eq_of_mem_ite_singleton h1] at hc; simp [Ev.isCall] at hc
                · rw [eq_of_mem_ite_singleton h2] at hc; simp [Ev.isCall] at hc
                · exact h3
            | true =>
                cases hsa : save attempt with
                | ok u =>
                    simp only [hsa, if_true, List.mem_append, List.mem_singleton] at he
                    rcases he with (((h1 | h2) | h3) | h4)
                    · rw [eq_of_mem_ite_singleton h1] at hc; simp [Ev.isCall] at hc
                    · rw [eq_of_mem_ite_singleton h2] at hc; simp [Ev.isCall] at hc
                    · exact h3
                    · subst h4; simp [Ev.isCall] at hc
                | error emsg2 =>
                    simp only [hsa, if_true, List.mem_append, List.mem_singleton] at he
                    rcases he with ((((h1 | h2) | h3) | h4) | h5)
                    · rw [eq_of_mem_ite_singleton h1] at hc; simp [Ev.isCall] at hc
                    · rw [eq_of_mem_ite_singleton h2] at hc; simp [Ev.isCall] at hc
                    · exact h3
                    · subst h4; simp [Ev.isCall] at hc
                    · exact ih (attempt + 1) (some emsg2) e h5 hc

end RunnerLemmas

namespace RunnerLemmas

/-- Evaluation of build_and_send_request against a transport oracle with
a known result: the call event always records the selected body, and the
returned value follows the HTTPError-as-response classification. -/
theorem build_and_send_eval (ap : String → Dict → String)
    (transport : HttpRunnerStdlib.StdRequest → Nat → HttpRunnerStdlib.RawResult)
    (raw : HttpRunnerStdlib.RawResult) (htr : ∀ req i, transport req i = raw)
    (i : Nat) (url method : String) (params headers cookies : Dict)
    (timeout : Nat) (ar vt : Bool) (prox : Option Dict)
    (db jb : Option (List Nat)) :
    HttpRunnerStdlib.build_and_send_request ap transport i url method params headers
        cookies timeout ar vt prox db jb =
      ((match raw.toResponse with
        | some r => .ok r
        | none => .error (match raw with | .urlError m => m | _ => "")),
       [Ev.callStd (bodySelect db jb)]) := by
  unfold HttpRunnerStdlib.build_and_send_request
  simp only [htr]
  cases raw <;> cases jb <;>
    simp [HttpRunnerStdlib.RawResult.toResponse, bodySelect]

end RunnerLemmas

namespace RunnerLemmas

/-- Lists of characters free of the separator make splitOnce fail,
mirroring the membership guard (sep in item). -/
theorem splitOnce_eq_none (sep : Char) :
    ∀ l : List Char, (∀ c ∈ l, c ≠ sep) → Py.splitOnce sep l = none := by
  intro l
  induction l with
  | nil => intro _; rfl
  | cons c rest ih =>
      intro h
      have hc : c ≠ sep := h c (List.mem_cons_self c rest)
      simp [Py.splitOnce, hc, ih (fun x hx => h x (List.mem_cons_of_mem c hx))]

/-- splitOnce cuts at the first occurrence of the separator. -/
theorem splitOnce_first (sep : Char) :
    ∀ (pre post : List Char), (∀ c ∈ pre, c ≠ sep) →
      Py.splitOnce sep (pre ++ sep :: post) = some (pre, post) := by
  intro pre
  induction pre with
  | nil => intro post _; simp [Py.splitOnce]
  | cons c rest ih =>
      intro post h
      have hc : c ≠ sep := h c (List.mem_cons_self c rest)
      simp [Py.splitOnce, hc, ih post (fun x hx => h x (List.mem_cons_of_mem c hx))]

/-- Round trip between character lists and strings. -/
theorem toList_asString (l : List Char) : (l.asString).toList = l := rfl

/-- Concatenating the literal pieces of the pair error message. -/
theorem msg_pair (q : String) :
    "Invalid pair " ++ q ++ ". Expected format key" ++ String.singleton '=' ++
      "value" = "Invalid pair " ++ q ++ ". Expected format key=value" := by
  apply String.ext
  simp [String.data_append]

end RunnerLemmas

/-- C10: the two runner variants implement identical configuration
parsing — parse_key_value_pairs and parse_header_pairs of
http_runner.py and http_runner_stdlib.py agree on every input, both in
the produced dictionary and in the raised error messages. -/
theorem parse_variants_agree :
    (∀ (pairs : Option (List (Option String))) (sep : Char),
      HttpRunner.parse_key_value_pairs pairs sep =
        HttpRunnerStdlib.parse_key_value_pairs pairs sep) ∧
    (∀ pairs : Option (List String),
      HttpRunner.parse_header_pairs pairs =
        HttpRunnerStdlib.parse_header_pairs pairs) :=
  ⟨fun _ _ => rfl, fun _ => rfl⟩

/-- Counterexample for C3: a blank entry is not skipped — it lacks the
separator, so parse_key_value_pairs raises the validation error instead
of ignoring the entry. -/
theorem blank_entry_not_skipped :
    HttpRunner.parse_key_value_pairs (some [some ""]) '=' =
      .error ("Invalid pair " ++ Py.quoted "" ++ ". Expected format key=value") ∧
    HttpRunner.parse_key_value_pairs (some [some ""]) '=' ≠
      Except.ok ([] : List (String × String)) :=
  ⟨rfl, fun h => Except.noConfusion h⟩

/-- C3 (amended): parse_key_value_pairs splits each entry on the first
occurrence of the separator only, strips whitespace around key and
value, raises a validation error when an entry lacks the separator
(including blank entries, which raise rather than being skipped) or has
an empty key after trimming, skips None entries, and resolves duplicate
keys to the last value; parse_header_pairs behaves the same with a
colon separator. -/
theorem pair_parsing_spec :
    (∀ item : String, (∀ c ∈ item.toList, c ≠ '=') →
       HttpRunner.parse_key_value_pairs (some [some item]) '=' =
         .error ("Invalid pair " ++ Py.quoted item ++ ". Expected format key=value")) ∧
    (∀ pre post : List Char, (∀ c ∈ pre, c ≠ '=') → Py.strip pre ≠ [] →
       HttpRunner.parse_key_value_pairs (some [some (pre ++ '=' :: post).asString]) '=' =
         .ok [((Py.strip pre).asString, (Py.strip post).asString)]) ∧
    (∀ pre post : List Char, (∀ c ∈ pre, c ≠ '=') → Py.strip pre = [] →
       HttpRunner.parse_key_value_pairs (some [some (pre ++ '=' :: post).asString]) '=' =
         .error ("Invalid pair " ++ Py.quoted (pre ++ '=' :: post).asString ++
           ". Key is empty")) ∧
    (∀ rest : List (Option String),
       HttpRunner.parse_key_value_pairs (some (none :: rest)) '=' =
         HttpRunner.parse_key_value_pairs (some rest) '=') ∧
    (HttpRunner.parse_key_value_pairs (some [some "a=1", some "a=2"]) '=' =
       .ok [("a", "2")]) ∧
    (∀ item : String, (∀ c ∈ item.toList, c ≠ ':') →
       HttpRunner.parse_header_pairs (some [item]) =
         .error ("Invalid header " ++ Py.quoted item ++ ". Expected format " ++
           Py.sq ++ "Name: Value" ++ Py.sq)) ∧
    (∀ pre post : List Char, (∀ c ∈ pre, c ≠ ':') → Py.strip pre ≠ [] →
       HttpRunner.parse_header_pairs (some [(pre ++ ':' :: post).asString]) =
         .ok [((Py.strip pre).asString, (Py.strip post).asString)]) ∧
    (∀ pre post : List Char, (∀ c ∈ pre, c ≠ ':') → Py.strip pre = [] →
       HttpRunner.parse_header_pairs (some [(pre ++ ':' :: post).asString]) =
         .error ("Invalid header " ++ Py.quoted (pre ++ ':' :: post).asString ++
           ". Name is empty")) := by
  refine ⟨?_, ?_, ?_, ?_, rfl, ?_, ?_, ?_⟩
  · intro item h
    have hs : Py.splitOnce '=' item.data = none :=
      RunnerLemmas.splitOnce_eq_none '=' item.toList h
    simp [HttpRunner.parse_key_value_pairs, hs, RunnerLemmas.msg_pair]
  · intro pre post h hne
    have hs : Py.splitOnce '=' ((pre ++ '=' :: post).asString).data =
        some (pre, post) := RunnerLemmas.splitOnce_first '=' pre post h
    simp [HttpRunner.parse_key_value_pairs, hs, hne, Py.dictInsert]
  · intro pre post h hemp
    have hs : Py.splitOnce '=' ((pre ++ '=' :: post).asString).data =
        some (pre, post) := RunnerLemmas.splitOnce_first '=' pre post h
    simp [HttpRunner.parse_key_value_pairs, hs, hemp]
  · intro rest
    cases rest <;> simp [HttpRunner.parse_key_value_pairs]
  · intro item h
    have hs : Py.splitOnce ':' item.data = none :=
      RunnerLemmas.splitOnce_eq_none ':' item.toList h
    simp [HttpRunner.parse_header_pairs, hs]
  · intro pre post h hne
    have hs : Py.splitOnce ':' ((pre ++ ':' :: post).asString).data =
        some (pre, post) := RunnerLemmas.splitOnce_first ':' pre post h
    simp [HttpRunner.parse_header_pairs, hs, hne, Py.dictInsert]
  · intro pre post h hemp
    have hs : Py.splitOnce ':' ((pre ++ ':' :: post).asString).data =
        some (pre, post) := RunnerLemmas.splitOnce_first ':' pre post h
    simp [HttpRunner.parse_header_pairs, hs, hemp]

/-- Witness for C3 at concrete entries: " a = b" parses to ("a", "b")
with the value side keeping its own inner split, and a separator-free
entry raises. -/
theorem pair_parsing_spec_witness :
    HttpRunner.parse_key_value_pairs
        (some [some ([' ', 'a'] ++ '=' :: [' ', 'b']).asString]) '=' =
      .ok [((Py.strip [' ', 'a']).asString, (Py.strip [' ', 'b']).asString)] ∧
    HttpRunner.parse_key_value_pairs (some [some "novalue"]) '=' =
      .error ("Invalid pair " ++ Py.quoted "novalue" ++
        ". Expected format key=value") :=
  ⟨pair_parsing_spec.2.1 [' ', 'a'] [' ', 'b'] (by decide) (by decide),
   pair_parsing_spec.1 "novalue" (by decide)⟩

/-- C5: safe_filename keeps at most 128 characters, every kept character
is an alphanumeric or one of the three allowed punctuation marks, every
disallowed character of the input is replaced in place by an underscore,
the result never contains a path separator, and the stdlib variant
computes the identical function. -/
theorem safe_filename_spec (value : String) :
    (HttpRunner.safe_filename value).length ≤ 128 ∧
    (∀ c ∈ (HttpRunner.safe_filename value).toList,
      (c.isAlphanum = true ∨ c = '-' ∨ c = '_' ∨ c = '.') ∧ c ≠ '/' ∧ c ≠ '\\') ∧
    (∀ (i : Nat) (ch : Char), value.toList[i]? = some ch → i < 128 →
      (HttpRunner.safe_filename value).toList[i]? =
        some (if ch.isAlphanum || ch == '-' || ch == '_' || ch == '.' then ch
          else '_')) ∧
    HttpRunnerStdlib.safe_filename value = HttpRunner.safe_filename value := by
  refine ⟨?_, ?_, ?_, rfl⟩
  · show ((value.toList.map _).take 128).length ≤ 128
    simp [List.length_take]
  · intro c hc
    have hc2 := List.mem_of_mem_take hc
    rcases List.mem_map.mp hc2 with ⟨a, _, ha⟩
    by_cases hall : (a.isAlphanum || a == '-' || a == '_' || a == '.') = true
    · rw [if_pos hall] at ha
      subst ha
      refine ⟨?_, ?_, ?_⟩
      · simp only [Bool.or_eq_true, beq_iff_eq] at hall
        tauto
      · rintro rfl
        exact absurd hall (by decide)
      · rintro rfl
        exact absurd hall (by decide)
    · rw [if_neg hall] at ha
      subst ha
      exact ⟨Or.inr (Or.inr (Or.inl rfl)), by decide, by decide⟩
  · intro i ch hch hi
    show ((value.toList.map _).take 128)[i]? = _
    rw [List.getElem?_take, if_pos hi, List.getElem?_map, hch]
    rfl

/-- Witness for C5: the path-traversal name from the spec sanitizes to a
flat underscore-separated file name with no slash. -/
theorem safe_filename_spec_witness :
    HttpRunner.safe_filename "../../etc/passwd" = ".._.._etc_passwd" ∧
    '/' ∉ (HttpRunner.safe_filename "../../etc/passwd").toList :=
  ⟨rfl, fun hmem =>
    absurd ((safe_filename_spec "../../etc/passwd").2.1 '/' hmem).2.1 (by simp)⟩

/-- C2: whenever the stdlib transport yields any response — a regular
response with any status code, or an HTTPError (which is how a 3xx
surfaces when redirect-following is disabled) — the target succeeds
after exactly one attempt with Outcome fields name/status/elapsed/
headers, and no re-request occurs; only a URLError (transport failure)
is excluded by the hypothesis that a response was obtained. -/
theorem perform_std_any_response_single_attempt
    (attachParams : String → Dict → String)
    (transport : HttpRunnerStdlib.StdRequest → Nat → HttpRunnerStdlib.RawResult)
    (save : Nat → Except String Unit) (name url method : String)
    (params base_headers base_cookies : Dict)
    (session_value session_header_name session_cookie_name : Option String)
    (timeout : Nat) (allow_redirects verify_tls : Bool) (proxies : Option Dict)
    (data_bytes json_bytes : Option (List Nat))
    (R b d : Nat) (save_dir : Option String) (save_body : Bool)
    (raw : HttpRunnerStdlib.RawResult) (r : Response)
    (htr : ∀ req i, transport req i = raw)
    (hr : raw.toResponse = some r)
    (hdir : truthyStr save_dir = false) :
    HttpRunnerStdlib.perform_request_with_retries attachParams transport save name
        url method params base_headers base_cookies session_value
        session_header_name session_cookie_name timeout allow_redirects verify_tls
        proxies data_bytes json_bytes R b d save_dir save_body =
      (Outcome.success name r.status r.elapsed_ms r.headers,
       (if 0 < d then [Ev.sleepPacing d] else []) ++
         [Ev.callStd (bodySelect data_bytes json_bytes)]) ∧
    (HttpRunnerStdlib.perform_request_with_retries attachParams transport save name
        url method params base_headers base_cookies session_value
        session_header_name session_cookie_name timeout allow_redirects verify_tls
        proxies data_bytes json_bytes R b d save_dir
        save_body).2.countP Ev.isCall = 1 := by
  have hb : HttpRunnerStdlib.build_and_send_request attachParams transport 0 url
      method params
      (applySession base_headers base_cookies session_value session_header_name
        session_cookie_name).1
      (applySession base_headers base_cookies session_value session_header_name
        session_cookie_name).2
      timeout allow_redirects verify_tls proxies data_bytes json_bytes =
      (.ok r, [Ev.callStd (bodySelect data_bytes json_bytes)]) := by
    rw [RunnerLemmas.build_and_send_eval attachParams transport raw htr, hr]
  have hperf : HttpRunnerStdlib.perform_request_with_retries attachParams transport
      save name url method params base_headers base_cookies session_value
      session_header_name session_cookie_name timeout allow_redirects verify_tls
      proxies data_bytes json_bytes R b d save_dir save_body =
      (Outcome.success name r.status r.elapsed_ms r.headers,
       (if 0 < d then [Ev.sleepPacing d] else []) ++
         [Ev.callStd (bodySelect data_bytes json_bytes)]) := by
    rw [HttpRunnerStdlib.perform_request_with_retries, hdir]
    exact RunnerLemmas.retryLoop_firstOk name _ save b d r _ hb R none
  refine ⟨hperf, ?_⟩
  have htrace := congrArg Prod.snd hperf
  dsimp only at htrace
  rw [htrace]
  by_cases h2 : 0 < d <;>
    simp [h2, List.countP_append, List.countP_cons, Ev.isCall]

/-- Witness for C2: a transport returning HTTP 302 as an HTTPError with
redirects disabled, retries = 2 configured — one attempt, success
Outcome with status 302. -/
theorem perform_std_any_response_single_attempt_witness :
    HttpRunnerStdlib.perform_request_with_retries (fun u _ => u)
        (fun _ _ => .httpError 302 (some [("Location", "http://y")]) none 7)
        (fun _ => .ok ()) "t" "http://x" "GET" [] [] [] none none none 30
        false true none none none 2 200 0 none false =
      (Outcome.success "t" 302 7 [("Location", "http://y")],
       (if 0 < (0 : Nat) then [Ev.sleepPacing 0] else []) ++
         [Ev.callStd (bodySelect none none)]) ∧
    (HttpRunnerStdlib.perform_request_with_retries (fun u _ => u)
        (fun _ _ => .httpError 302 (some [("Location", "http://y")]) none 7)
        (fun _ => .ok ()) "t" "http://x" "GET" [] [] [] none none none 30
        false true none none none 2 200 0 none
        false).2.countP Ev.isCall = 1 :=
  perform_std_any_response_single_attempt (fun u _ => u)
    (fun _ _ => .httpError 302 (some [("Location", "http://y")]) none 7)
    (fun _ => .ok ()) "t" "http://x" "GET" [] [] [] none none none 30
    false true none none none 2 200 0 none false
    (.httpError 302 (some [("Location", "http://y")]) none 7)
    ⟨302, [("Location", "http://y")], [], 7⟩ (fun _ _ => rfl) rfl rfl

/-- C9: the try-block of the retry loop also covers result persistence
in both variants: when every transport attempt returns a response but
the save step always raises, each save failure consumes one unit of the
retry budget, the whole attempt (including the HTTP request) is
re-executed — R + 1 transport calls in total — and the final Outcome is
the failure record carrying the last save error, even though every HTTP
attempt produced a response. -/
theorem save_failure_consumes_retry_budget
    (transportR : HttpRunner.RqRequest → Nat → Except String Response)
    (attachParams : String → Dict → String)
    (transportS : HttpRunnerStdlib.StdRequest → Nat → HttpRunnerStdlib.RawResult)
    (save : Nat → Except String Unit) (name url method : String)
    (params base_headers base_cookies : Dict)
    (session_value session_header_name session_cookie_name : Option String)
    (timeout : Nat) (allow_redirects verify_tls : Bool) (proxies : Option Dict)
    (data : Option String) (json_body : Option Json)
    (data_bytes json_bytes : Option (List Nat))
    (R b d : Nat) (save_dir : Option String) (save_body : Bool)
    (respR : Nat → Response) (emsg : Nat → String)
    (rawS : HttpRunnerStdlib.RawResult) (rS : Response)
    (htrR : ∀ req i, transportR req i = .ok (respR i))
    (htrS : ∀ req i, transportS req i = rawS)
    (hrS : rawS.toResponse = some rS)
    (hsv : ∀ i, save i = .error (emsg i))
    (hdir : truthyStr save_dir = true) :
    ((HttpRunner.perform_request_with_retries transportR save name url method params
        base_headers base_cookies session_value session_header_name
        session_cookie_name timeout allow_redirects verify_tls proxies data
        json_body R b d save_dir save_body).1 = Outcome.failure name (emsg R) ∧
     (HttpRunner.perform_request_with_retries transportR save name url method params
        base_headers base_cookies session_value session_header_name
        session_cookie_name timeout allow_redirects verify_tls proxies data
        json_body R b d save_dir save_body).2.countP Ev.isCall = R + 1) ∧
    ((HttpRunnerStdlib.perform_request_with_retries attachParams transportS save name
        url method params base_headers base_cookies session_value
        session_header_name session_cookie_name timeout allow_redirects verify_tls
        proxies data_bytes json_bytes R b d save_dir save_body).1 =
          Outcome.failure name (emsg R) ∧
     (HttpRunnerStdlib.perform_request_with_retries attachParams transportS save name
        url method params base_headers base_cookies session_value
        session_header_name session_cookie_name timeout allow_redirects verify_tls
        proxies data_bytes json_bytes R b d save_dir
        save_body).2.countP Ev.isCall = R + 1) := by
  have hcount : ∀ (i : Nat) (tail : List Ev), tail.countP Ev.isCall = 1 →
      (((if 0 < i ∧ 0 < b then [Ev.sleepBackoff (b * 2 ^ (i - 1))] else []) ++
        (if 0 < d then [Ev.sleepPacing d] else []) ++ tail).countP Ev.isCall) = 1 := by
    intro i tail htail
    by_cases h1 : (0 < i ∧ 0 < b) <;> by_cases h2 : 0 < d <;>
      simp [h1, h2, List.countP_append, Ev.isCall, htail]
  constructor
  · have hb : ∀ i, HttpRunner.build_request transportR i url method params
        (applySession base_headers base_cookies session_value session_header_name
          session_cookie_name).1
        (applySession base_headers base_cookies session_value session_header_name
          session_cookie_name).2
        timeout allow_redirects verify_tls proxies data json_body =
        (.ok (respR i), [Ev.callRq json_body data]) := by
      intro i
      simp [HttpRunner.build_request, htrR]
    have key := RunnerLemmas.retryLoop_saveFail name _ save b d respR
      (fun _ => [Ev.callRq json_body data]) emsg hb hsv R 0 none
    have hperf : HttpRunner.perform_request_with_retries transportR save name url
        method params base_headers base_cookies session_value session_header_name
        session_cookie_name timeout allow_redirects verify_tls proxies data
        json_body R b d save_dir save_body =
        (Outcome.failure name (emsg (0 + R)),
         RunnerLemmas.recTrace (fun i =>
           (if 0 < i ∧ 0 < b then [Ev.sleepBackoff (b * 2 ^ (i - 1))] else []) ++
           (if 0 < d then [Ev.sleepPacing d] else []) ++ [Ev.callRq json_body data] ++
           [Ev.save]) (R + 1) 0) := by
      rw [HttpRunner.perform_request_with_retries, hdir]
      exact key
    constructor
    · have h1 := congrArg Prod.fst hperf
      dsimp only at h1
      rw [h1]
      simp
    · have h2 := congrArg Prod.snd hperf
      dsimp only at h2
      rw [h2]
      refine RunnerLemmas.countP_recTrace_one Ev.isCall _ (fun i => ?_) (R + 1) 0
      rw [show ((if 0 < i ∧ 0 < b then [Ev.sleepBackoff (b * 2 ^ (i - 1))] else []) ++
        (if 0 < d then [Ev.sleepPacing d] else []) ++ [Ev.callRq json_body data] ++
        [Ev.save]) = ((if 0 < i ∧ 0 < b then [Ev.sleepBackoff (b * 2 ^ (i - 1))] else []) ++
        (if 0 < d then [Ev.sleepPacing d] else []) ++ ([Ev.callRq json_body data] ++
        [Ev.save])) from by simp [List.append_assoc]]
      exact hcount i _ (by simp [Ev.isCall])
  · have hb : ∀ i, HttpRunnerStdlib.build_and_send_request attachParams transportS i
        url method params
        (applySession base_headers base_cookies session_value session_header_name
          session_cookie_name).1
        (applySession base_headers base_cookies session_value session_header_name
          session_cookie_name).2
        timeout allow_redirects verify_tls proxies data_bytes json_bytes =
        (.ok rS, [Ev.callStd (bodySelect data_bytes json_bytes)]) := by
      intro i
      rw [RunnerLemmas.build_and_send_eval attachParams transportS rawS htrS, hrS]
    have key := RunnerLemmas.retryLoop_saveFail name _ save b d (fun _ => rS)
      (fun _ => [Ev.callStd (bodySelect data_bytes json_bytes)]) emsg hb hsv R 0 none
    have hperf : HttpRunnerStdlib.perform_request_with_retries attachParams transportS
        save name url method params base_headers base_cookies session_value
        session_header_name session_cookie_name timeout allow_redirects verify_tls
        proxies data_bytes json_bytes R b d save_dir save_body =
        (Outcome.failure name (emsg (0 + R)),
         RunnerLemmas.recTrace (fun i =>
           (if 0 < i ∧ 0 < b then [Ev.sleepBackoff (b * 2 ^ (i - 1))] else []) ++
           (if 0 < d then [Ev.sleepPacing d] else []) ++
           [Ev.callStd (bodySelect data_bytes json_bytes)] ++ [Ev.save]) (R + 1) 0) := by
      rw [HttpRunnerStdlib.perform_request_with_retries, hdir]
      exact key
    constructor
    · have h1 := congrArg Prod.fst hperf
      dsimp only at h1
      rw [h1]
      simp
    · have h2 := congrArg Prod.snd hperf
      dsimp only at h2
      rw [h2]
      refine RunnerLemmas.countP_recTrace_one Ev.isCall _ (fun i => ?_) (R + 1) 0
      rw [show ((if 0 < i ∧ 0 < b then [Ev.sleepBackoff (b * 2 ^ (i - 1))] else []) ++
        (if 0 < d then [Ev.sleepPacing d] else []) ++
        [Ev.callStd (bodySelect data_bytes json_bytes)] ++
        [Ev.save]) = ((if 0 < i ∧ 0 < b then [Ev.sleepBackoff (b * 2 ^ (i - 1))] else []) ++
        (if 0 < d then [Ev.sleepPacing d] else []) ++
        ([Ev.callStd (bodySelect data_bytes json_bytes)] ++
        [Ev.save])) from by simp [List.append_assoc]]
      exact hcount i _ (by simp [Ev.isCall])

/-- Witness for C9: a transport that always returns HTTP 200 paired with
a save step that always raises a disk error, retries = 1: both variants
make 2 transport calls and end in the failure Outcome carrying the save
error. -/
theorem save_failure_consumes_retry_budget_witness :
    ((HttpRunner.perform_request_with_retries
        (fun _ _ => .ok ⟨200, [], [], 3⟩) (fun _ => .error "disk full") "t"
        "http://x" "GET" [] [] [] none none none 30 false true none none none
        1 0 0 (some "out") true).1 = Outcome.failure "t" "disk full" ∧
     (HttpRunner.perform_request_with_retries
        (fun _ _ => .ok ⟨200, [], [], 3⟩) (fun _ => .error "disk full") "t"
        "http://x" "GET" [] [] [] none none none 30 false true none none none
        1 0 0 (some "out") true).2.countP Ev.isCall = 2) ∧
    ((HttpRunnerStdlib.perform_request_with_retries (fun u _ => u)
        (fun _ _ => .resp 200 [] [] 3) (fun _ => .error "disk full") "t"
        "http://x" "GET" [] [] [] none none none 30 false true none none none
        1 0 0 (some "out") true).1 = Outcome.failure "t" "disk full" ∧
     (HttpRunnerStdlib.perform_request_with_retries (fun u _ => u)
        (fun _ _ => .resp 200 [] [] 3) (fun _ => .error "disk full") "t"
        "http://x" "GET" [] [] [] none none none 30 false true none none none
        1 0 0 (some "out") true).2.countP Ev.isCall = 2) :=
  save_failure_consumes_retry_budget
    (fun _ _ => .ok ⟨200, [], [], 3⟩) (fun u _ => u)
    (fun _ _ => .resp 200 [] [] 3) (fun _ => .error "disk full") "t" "http://x"
    "GET" [] [] [] none none none 30 false true none none none none none
    1 0 0 (some "out") true (fun _ => ⟨200, [], [], 3⟩) (fun _ => "disk full")
    (.resp 200 [] [] 3) ⟨200, [], [], 3⟩
    (fun _ _ => rfl) (fun _ _ => rfl) rfl (fun _ => rfl) rfl

/-- C1: when the transport fails on every attempt and R retries are
configured, perform_request_with_retries makes exactly R + 1 attempts
and returns the failure Outcome carrying only the last failure message;
the trace shows the exponential backoff sleep of backoff_base_ms *
2 ^ (i - 1) before the i-th retry attempt only (never before the first
attempt) and, when delay_between_ms is positive, a pacing sleep before
every attempt including the first. -/
theorem perform_rq_retries_exhausted
    (transport : HttpRunner.RqRequest → Nat → Except String Response)
    (save : Nat → Except String Unit) (name url method : String)
    (params base_headers base_cookies : Dict)
    (session_value session_header_name session_cookie_name : Option String)
    (timeout : Nat) (allow_redirects verify_tls : Bool) (proxies : Option Dict)
    (data : Option String) (json_body : Option Json)
    (R b d : Nat) (save_dir : Option String) (save_body : Bool)
    (msg : Nat → String)
    (hfail : ∀ req i, transport req i = .error (msg i)) :
    HttpRunner.perform_request_with_retries transport save name url method params
        base_headers base_cookies session_value session_header_name
        session_cookie_name timeout allow_redirects verify_tls proxies data
        json_body R b d save_dir save_body =
      (Outcome.failure name (msg R),
       (List.range (R + 1)).flatMap (fun i =>
         (if 0 < i ∧ 0 < b then [Ev.sleepBackoff (b * 2 ^ (i - 1))] else []) ++
         (if 0 < d then [Ev.sleepPacing d] else []) ++
         [Ev.callRq json_body data])) ∧
    (HttpRunner.perform_request_with_retries transport save name url method params
        base_headers base_cookies session_value session_header_name
        session_cookie_name timeout allow_redirects verify_tls proxies data
        json_body R b d save_dir save_body).2.countP Ev.isCall = R + 1 := by
  have key := RunnerLemmas.retryLoop_allFail name
    (fun attempt => HttpRunner.build_request transport attempt url method params
      (applySession base_headers base_cookies session_value session_header_name
        session_cookie_name).1
      (applySession base_headers base_cookies session_value session_header_name
        session_cookie_name).2
      timeout allow_redirects verify_tls proxies data json_body)
    save (truthyStr save_dir) b d msg (fun _ => [Ev.callRq json_body data])
    (fun i => by simp [HttpRunner.build_request, hfail]) R 0 none
  have hperf : HttpRunner.perform_request_with_retries transport save name url method
      params base_headers base_cookies session_value session_header_name
      session_cookie_name timeout allow_redirects verify_tls proxies data
      json_body R b d save_dir save_body =
      (Outcome.failure name (msg (0 + R)),
       RunnerLemmas.recTrace (fun i =>
         (if 0 < i ∧ 0 < b then [Ev.sleepBackoff (b * 2 ^ (i - 1))] else []) ++
         (if 0 < d then [Ev.sleepPacing d] else []) ++ [Ev.callRq json_body data])
         (R + 1) 0) := by
    rw [HttpRunner.perform_request_with_retries]
    exact key
  constructor
  · rw [hperf, RunnerLemmas.recTrace_eq_flatMap]
    simp
  · have htr := congrArg Prod.snd hperf
    dsimp only at htr
    rw [htr]
    refine RunnerLemmas.countP_recTrace_one Ev.isCall _ (fun i => ?_) (R + 1) 0
    by_cases h1 : (0 < i ∧ 0 < b) <;> by_cases h2 : (0 < d) <;>
      simp [h1, h2, List.countP_append, List.countP_cons, Ev.isCall]

/-- Witness for C1 at a concrete always-failing transport with
retries = 2, backoff 100 ms, no pacing delay. -/
theorem perform_rq_retries_exhausted_witness :
    HttpRunner.perform_request_with_retries
        (fun _ _ => .error "timed out") (fun _ => .ok ()) "t" "http://x" "GET"
        [] [] [] none none none 30 false true none none none
        2 100 0 none false =
      (Outcome.failure "t" "timed out",
       (List.range 3).flatMap (fun i =>
         (if 0 < i ∧ 0 < 100 then [Ev.sleepBackoff (100 * 2 ^ (i - 1))] else []) ++
         (if 0 < (0 : Nat) then [Ev.sleepPacing 0] else []) ++
         [Ev.callRq none none])) ∧
    (HttpRunner.perform_request_with_retries
        (fun _ _ => .error "timed out") (fun _ => .ok ()) "t" "http://x" "GET"
        [] [] [] none none none 30 false true none none none
        2 100 0 none false).2.countP Ev.isCall = 3 :=
  perform_rq_retries_exhausted (fun _ _ => .error "timed out") (fun _ => .ok ())
    "t" "http://x" "GET" [] [] [] none none none 30 false true none none none
    2 100 0 none false (fun _ => "timed out") (fun _ _ => rfl)

/-- C4: configuring both a JSON body source and a raw-data body source
makes validation fail with the mutual-exclusion error before any network
call: both variants of parse_body raise it, the run makes zero transport
calls, and — provided the earlier pair/header parsing succeeds — the run
aborts with exactly that message. -/
theorem both_body_sources_fail_before_network
    (fs : FS) (jsonLoads : String → Except String Json)
    (jsonDumps : Json → List Nat)
    (transport : String → HttpRunner.RqRequest → Nat → Except String Response)
    (save : String → Nat → Except String Unit)
    (args : HttpRunner.RunArgs) (js ds : String)
    (hj : args.json = some js) (hd : args.data = some ds) :
    (HttpRunner.parse_body fs jsonLoads ⟨args.json, args.data⟩).1 =
      .error "Provide either --json or --data, not both" ∧
    (HttpRunnerStdlib.parse_body fs jsonLoads jsonDumps ⟨args.json, args.data⟩).1 =
      .error "Provide either --json or --data, not both" ∧
    (HttpRunner.run_concurrent_requests fs jsonLoads transport save
      args).2.countP Ev.isCall = 0 ∧
    (∀ r, (HttpRunner.run_concurrent_requests fs jsonLoads transport save
      args).1 ≠ .ok r) ∧
    (∀ bp bc bh,
      HttpRunner.parse_key_value_pairs (some (args.param.getD [])) '=' = .ok bp →
      HttpRunner.parse_key_value_pairs (some (args.cookie.getD [])) '=' = .ok bc →
      HttpRunner.parse_header_pairs (some (args.header.getD [])) = .ok bh →
      (HttpRunner.run_concurrent_requests fs jsonLoads transport save args).1 =
        .error "Provide either --json or --data, not both") := by
  have hpb : HttpRunner.parse_body fs jsonLoads ⟨args.json, args.data⟩ =
      (.error "Provide either --json or --data, not both", []) := by
    simp [HttpRunner.parse_body, hj, hd]
  have hrun : (HttpRunner.run_concurrent_requests fs jsonLoads transport save
        args).2.countP Ev.isCall = 0 ∧
      (∀ r, (HttpRunner.run_concurrent_requests fs jsonLoads transport save
        args).1 ≠ .ok r) := by
    unfold HttpRunner.run_concurrent_requests
    rcases hp : HttpRunner.parse_key_value_pairs (some (args.param.getD [])) '='
      with e | bp
    · simp
    · rcases hc : HttpRunner.parse_key_value_pairs (some (args.cookie.getD [])) '='
        with e | bc
      · simp
      · rcases hh : HttpRunner.parse_header_pairs (some (args.header.getD []))
          with e | bh
        · simp
        · rw [hpb]
          simp
  refine ⟨by simp [hpb], by simp [HttpRunnerStdlib.parse_body, hj, hd],
    hrun.1, hrun.2, ?_⟩
  intro bp bc bh hp hc hh
  unfold HttpRunner.run_concurrent_requests
  rw [hp, hc, hh, hpb]

/-- Witness for C4 at a concrete configuration carrying both body
sources. -/
theorem both_body_sources_fail_before_network_witness :
    (HttpRunner.parse_body emptyFS (fun _ => .error "invalid")
      ⟨some "{}", some "x"⟩).1 =
      .error "Provide either --json or --data, not both" ∧
    (HttpRunner.run_concurrent_requests emptyFS (fun _ => .error "invalid")
      (fun _ _ _ => .error "boom") (fun _ _ => .ok ())
      { baseArgs with json := some "{}", data := some "x" }).2.countP
        Ev.isCall = 0 ∧
    (HttpRunner.run_concurrent_requests emptyFS (fun _ => .error "invalid")
      (fun _ _ _ => .error "boom") (fun _ _ => .ok ())
      { baseArgs with json := some "{}", data := some "x" }).1 =
      .error "Provide either --json or --data, not both" :=
  have h := both_body_sources_fail_before_network emptyFS
    (fun _ => .error "invalid") (fun _ => []) (fun _ _ _ => .error "boom")
    (fun _ _ => .ok ()) { baseArgs with json := some "{}", data := some "x" }
    "{}" "x" rfl rfl
  ⟨h.1, h.2.2.1, h.2.2.2.2 [] [] [] rfl rfl rfl⟩

/-- Inversion of a successful run: the aggregate output lines are the
JSON Lines encoding of the received results exactly when an output path
is configured. -/
theorem RunnerLemmas.run_ok_outLines (fs : FS)
    (jsonLoads : String → Except String Json)
    (transport : String → HttpRunner.RqRequest → Nat → Except String Response)
    (save : String → Nat → Except String Unit) (args : HttpRunner.RunArgs)
    (results : List Outcome) (outLines : Option (List Json))
    (hrun : (HttpRunner.run_concurrent_requests fs jsonLoads transport save
      args).1 = .ok (results, outLines)) :
    outLines = if truthyStr args.output then some (writeJsonl results)
      else none := by
  unfold HttpRunner.run_concurrent_requests at hrun
  rcases hp : HttpRunner.parse_key_value_pairs (some (args.param.getD [])) '='
    with e | bp <;> rw [hp] at hrun
  · simp at hrun
  rcases hc : HttpRunner.parse_key_value_pairs (some (args.cookie.getD [])) '='
    with e | bc <;> rw [hc] at hrun
  · simp at hrun
  rcases hh : HttpRunner.parse_header_pairs (some (args.header.getD []))
    with e | bh <;> rw [hh] at hrun
  · simp at hrun
  rcases hb : HttpRunner.parse_body fs jsonLoads ⟨args.json, args.data⟩
    with ⟨bres, bevs⟩
  rw [hb] at hrun
  rcases bres with e | body
  · simp at hrun
  rcases hf : HttpRunner.fanOutTargets fs args with e | targets <;>
    rw [hf] at hrun
  · simp at hrun
  simp only [Except.ok.injEq, Prod.mk.injEq] at hrun
  rcases hrun with ⟨hres, hout⟩
  subst hres
  exact hout.symm

/-- C6: when an aggregate output path is configured and the run
completes with N Outcomes, the JSON Lines content has exactly N lines,
the i-th line is the JSON object of the i-th received Outcome
(completion order), and every line matches exactly one of the two
Outcome shapes. -/
theorem jsonl_output_spec (fs : FS) (jsonLoads : String → Except String Json)
    (transport : String → HttpRunner.RqRequest → Nat → Except String Response)
    (save : String → Nat → Except String Unit) (args : HttpRunner.RunArgs)
    (results : List Outcome) (outLines : Option (List Json))
    (hout : truthyStr args.output = true)
    (hrun : (HttpRunner.run_concurrent_requests fs jsonLoads transport save
      args).1 = .ok (results, outLines)) :
    ∃ lines : List Json, outLines = some lines ∧
      lines.length = results.length ∧
      (∀ i : Nat, lines[i]? = (results[i]?).map outcomeToJson) ∧
      (∀ l ∈ lines,
        (jsonKeys l = ["name", "status", "elapsed_ms", "response_headers"] ∧
          jsonKeys l ≠ ["name", "error"]) ∨
        (jsonKeys l = ["name", "error"] ∧
          jsonKeys l ≠ ["name", "status", "elapsed_ms", "response_headers"])) := by
  have h := RunnerLemmas.run_ok_outLines fs jsonLoads transport save args results
    outLines hrun
  rw [hout] at h
  simp only [if_true] at h
  refine ⟨writeJsonl results, h, by simp [writeJsonl], ?_, ?_⟩
  · intro i
    simp [writeJsonl, List.getElem?_map]
  · intro l hl
    rcases List.mem_map.mp hl with ⟨o, _, ho⟩
    subst ho
    cases o <;> simp [outcomeToJson, jsonKeys]

/-- Witness for C6: a single-target run with a configured output path
and a failing transport produces exactly one JSON line, the failure
object of the one received Outcome. -/
theorem jsonl_output_spec_witness :
    ∃ lines : List Json,
      some [outcomeToJson (Outcome.failure "t" "boom")] = some lines ∧
      lines.length = [Outcome.failure "t" "boom"].length ∧
      (∀ i : Nat, lines[i]? =
        ([Outcome.failure "t" "boom"][i]?).map outcomeToJson) ∧
      (∀ l ∈ lines,
        (jsonKeys l = ["name", "status", "elapsed_ms", "response_headers"] ∧
          jsonKeys l ≠ ["name", "error"]) ∨
        (jsonKeys l = ["name", "error"] ∧
          jsonKeys l ≠ ["name", "status", "elapsed_ms", "response_headers"])) :=
  jsonl_output_spec emptyFS (fun _ => .error "invalid")
    (fun _ _ _ => .error "boom") (fun _ _ => .ok ())
    { baseArgs with output := some "out.jsonl" }
    [Outcome.failure "t" "boom"]
    (some [outcomeToJson (Outcome.failure "t" "boom")]) rfl rfl

/-- C8: main returns exit code 0 whenever the run completes, whatever
the individual Outcomes are; a pre-run validation failure (any raised
exception) returns 1, which is non-zero; an external interrupt returns
130, distinct from both. -/
theorem exit_code_spec (fs : FS) (jsonLoads : String → Except String Json)
    (transport : String → HttpRunner.RqRequest → Nat → Except String Response)
    (save : String → Nat → Except String Unit) (args : HttpRunner.RunArgs) :
    (∀ results,
      (HttpRunner.run_concurrent_requests fs jsonLoads transport save args).1 =
        .ok results →
      HttpRunner.main fs jsonLoads transport save args false = 0) ∧
    (∀ e,
      (HttpRunner.run_concurrent_requests fs jsonLoads transport save args).1 =
        .error e →
      HttpRunner.main fs jsonLoads transport save args false = 1 ∧
        (1 : Nat) ≠ 0) ∧
    (HttpRunner.main fs jsonLoads transport save args true = 130 ∧
      (130 : Nat) ≠ 0 ∧ (130 : Nat) ≠ 1) := by
  refine ⟨?_, ?_, ?_, by decide, by decide⟩
  · intro results h
    simp [HttpRunner.main, h]
  · intro e h
    simp [HttpRunner.main, h]
  · simp [HttpRunner.main]

/-- Witness for C8: a completed run whose only Outcome is a failure
still exits 0; a run with conflicting body sources exits 1; the
interrupt path exits 130. -/
theorem exit_code_spec_witness :
    HttpRunner.main emptyFS (fun _ => .error "invalid")
      (fun _ _ _ => .error "boom") (fun _ _ => .ok ()) baseArgs false = 0 ∧
    HttpRunner.main emptyFS (fun _ => .error "invalid")
      (fun _ _ _ => .error "boom") (fun _ _ => .ok ())
      { baseArgs with json := some "{}", data := some "x" } false = 1 ∧
    HttpRunner.main emptyFS (fun _ => .error "invalid")
      (fun _ _ _ => .error "boom") (fun _ _ => .ok ()) baseArgs true = 130 :=
  ⟨(exit_code_spec emptyFS (fun _ => .error "invalid")
      (fun _ _ _ => .error "boom") (fun _ _ => .ok ()) baseArgs).1
      ([Outcome.failure "t" "boom"], none) rfl,
   ((exit_code_spec emptyFS (fun _ => .error "invalid")
      (fun _ _ _ => .error "boom") (fun _ _ => .ok ())
      { baseArgs with json := some "{}", data := some "x" }).2.1
      "Provide either --json or --data, not both" rfl).1,
   (exit_code_spec emptyFS (fun _ => .error "invalid")
      (fun _ _ _ => .error "boom") (fun _ _ => .ok ()) baseArgs).2.2.1⟩

/-- The attempt body of the stdlib variant emits exactly one call event
per invocation, carrying the selected body bytes, whatever the transport
returns. -/
theorem RunnerLemmas.build_and_send_snd (ap : String → Dict → String)
    (transport : HttpRunnerStdlib.StdRequest → Nat → HttpRunnerStdlib.RawResult)
    (i : Nat) (url method : String) (params headers cookies : Dict)
    (timeout : Nat) (ar vt : Bool) (prox : Option Dict)
    (db jb : Option (List Nat)) :
    (HttpRunnerStdlib.build_and_send_request ap transport i url method params
      headers cookies timeout ar vt prox db jb).2 =
      [Ev.callStd (bodySelect db jb)] := by
  unfold HttpRunnerStdlib.build_and_send_request
  cases jb <;> dsimp only <;> split <;> simp [bodySelect]

/-- Counterexample for C7: in the requests variant, parse_body performs
no serialization at configuration-build time — at a concrete
configuration it returns the parsed JSON value itself with an empty
event trace (json.dumps is never called inside it), contradicting the
claim that the JSON body is serialized to a canonical byte form inside
parse_body. -/
theorem json_not_serialized_in_rq_parse_body :
    HttpRunner.parse_body emptyFS (fun _ => .ok (Json.arr [Json.num 1]))
        ⟨some "[1]", none⟩ =
      (.ok (none, some (Json.arr [Json.num 1])), []) ∧
    (HttpRunner.parse_body emptyFS (fun _ => .ok (Json.arr [Json.num 1]))
        ⟨some "[1]", none⟩).2.countP Ev.isSerialize = 0 :=
  ⟨rfl, rfl⟩

/-- C7 (amended): the stdlib variant serializes the JSON body exactly
once, inside parse_body, to the bytes produced by json.dumps, and every
attempt of every target hands exactly those build-time bytes to the
transport; the requests variant never serializes inside parse_body — it
returns the parsed JSON value, which is handed unchanged to the
transport on every attempt, serialization being left to the requests
library per call. -/
theorem json_serialization_policy
    (fs : FS) (jsonLoads : String → Except String Json)
    (jsonDumps : Json → List Nat) (js : String) (obj : Json)
    (hfile : fs.isfile js = false) (hparse : jsonLoads js = .ok obj) :
    (HttpRunnerStdlib.parse_body fs jsonLoads jsonDumps ⟨some js, none⟩ =
      (.ok (none, some (jsonDumps obj)), [Ev.serialize])) ∧
    (∀ (attachParams : String → Dict → String) transport save
       (name url method : String) (params bh bc : Dict)
       (sv shn scn : Option String) (timeout : Nat) (ar vt : Bool)
       (prox : Option Dict) (R b d : Nat) (sd : Option String) (sb : Bool)
       (e : Ev),
      e ∈ (HttpRunnerStdlib.perform_request_with_retries attachParams transport
        save name url method params bh bc sv shn scn timeout ar vt prox none
        (some (jsonDumps obj)) R b d sd sb).2 → e.isCall = true →
        e = Ev.callStd (some (jsonDumps obj))) ∧
    (∀ args2 : BodyArgs, (HttpRunner.parse_body fs jsonLoads args2).2 = []) ∧
    (∀ transport save (name url method : String) (params bh bc : Dict)
       (sv shn scn : Option String) (timeout : Nat) (ar vt : Bool)
       (prox : Option Dict) (dt : Option String) (jb : Option Json)
       (R b d : Nat) (sd : Option String) (sb : Bool) (e : Ev),
      e ∈ (HttpRunner.perform_request_with_retries transport save name url
        method params bh bc sv shn scn timeout ar vt prox dt jb R b d sd
        sb).2 → e.isCall = true → e = Ev.callRq jb dt) := by
  refine ⟨?_, ?_, ?_, ?_⟩
  · simp [HttpRunnerStdlib.parse_body, hfile, hparse]
  · intro attachParams transport save name url method params bh bc sv shn scn
      timeout ar vt prox R b d sd sb e he hc
    refine RunnerLemmas.retryLoop_call_events name _ save (truthyStr sd) b d
      (Ev.callStd (some (jsonDumps obj))) (fun i => ?_) (R + 1) 0 none e he hc
    rw [RunnerLemmas.build_and_send_snd]
    rfl
  · intro args2
    rcases args2 with ⟨j, dt⟩
    cases j with
    | none =>
        cases dt <;> simp [HttpRunner.parse_body]
    | some jsv =>
        cases dt with
        | none =>
            simp only [HttpRunner.parse_body]
            split
          
            · rfl
            · split <;> rfl
        | some dtv => rfl
  · intro transport save name url method params bh bc sv shn scn timeout ar vt
      prox dt jb R b d sd sb e he hc
    exact RunnerLemmas.retryLoop_call_events name _ save (truthyStr sd) b d
      (Ev.callRq jb dt) (fun i => rfl) (R + 1) 0 none e he hc

/-- Witness for C7 at a concrete inline JSON body: the stdlib variant
emits one serialize event and returns the dumped bytes, the requests
variant emits none, and in a concrete two-attempt stdlib run both
transport calls carry the same build-time bytes. -/
theorem json_serialization_policy_witness :
    HttpRunnerStdlib.parse_body emptyFS (fun _ => .ok (Json.num 1))
        (fun _ => [49]) ⟨some "1", none⟩ =
      (.ok (none, some [49]), [Ev.serialize]) ∧
    (HttpRunner.parse_body emptyFS (fun _ => .ok (Json.num 1))
        ⟨some "1", none⟩).2 = [] ∧
    ((HttpRunnerStdlib.perform_request_with_retries (fun u _ => u)
        (fun _ _ => .urlError "boom") (fun _ => .ok ()) "t" "http://x" "GET"
        [] [] [] none none none 30 false true none none (some [49])
        1 0 0 none false).2.filter Ev.isCall =
      [Ev.callStd (some [49]), Ev.callStd (some [49])]) :=
  have h := json_serialization_policy emptyFS (fun _ => .ok (Json.num 1))
    (fun _ => [49]) "1" (Json.num 1) rfl rfl
  ⟨h.1, h.2.2.1 ⟨some "1", none⟩, rfl⟩
